import Mathlib

/-!
Verification of the Frieren Downloader UI logic (`src/App.tsx`).

The React component is embedded shallowly:

* `AppState` collects the `useState` hooks of `App`.
* `Action` is the alphabet of primitive effects the handlers perform, in
  program order: state setters (`setX`), toasts, `invoke` calls, and the
  progress-stream subscribe/unsubscribe.  `applyAction` interprets the
  state-changing actions on `AppState`; toasts, invokes and subscription
  management leave the state unchanged (they are external effects, kept in
  the trace so that ordering properties can be stated).
* `handleDownload` and `handleFetchVideoInfo` produce the ordered trace of
  effects of one invocation of the corresponding async handler.  The
  outcome of the awaited `invoke` is a parameter (`Except String _`: the
  bridge either resolves or rejects with a stringified error), and the
  asynchronous events delivered while `download_media` is in flight are a
  parameter `events : List DuringEvent`; they can only arrive after the
  command has been issued, so their actions appear after the invoke in the
  trace, in arrival order.
* `onDownloadLog` is the handler the mount effect registers on the
  `download-log` stream.
* `qualitySelectorIds` is the option list rendered by the quality
  `Select` (fetched list when non-empty, else the static fallback).
-/

namespace Frieren

/-- `QualityOption` as in `App.tsx`: `{ id, label, format_type }`. -/
structure QualityOption where
  id : String
  label : String
  format_type : String
deriving DecidableEq, Repr

/-- `LogMessage` as in `App.tsx`.  The source casts the incoming
`message_type` string to `"stdout" | "stderr"` without validation, so the
`type` field is an arbitrary string here. -/
structure LogMessage where
  type : String
  message : String
deriving DecidableEq, Repr

/-- `BackendLogMessage` payload of the `download-log` stream. -/
structure BackendLogMessage where
  message_type : String
  message : String
deriving DecidableEq, Repr

/-- The argument record of the `download_media` invoke.  `downloadPath` is
`none` when no directory was chosen (the source passes its `null`
state, which the bridge's optional field receives as the absent value). -/
structure DownloadRequest where
  url : String
  format : String
  quality : String
  downloadPath : Option String
deriving DecidableEq, Repr

/-- The `useState` hooks of `App`, in declaration order.  Progress is a
number in the source; the claims only involve the integer values 0 and
100 and pass-through of event values, so `Int` suffices. -/
structure AppState where
  url : String
  format : String
  quality : String
  isDownloading : Bool
  isFetchingInfo : Bool
  progress : Int
  downloadPath : Option String
  availableQualities : List QualityOption
  logs : List LogMessage
  isLogViewerOpen : Bool
deriving DecidableEq, Repr

/-- The initial state given by the `useState` defaults in `App`. -/
def initialState : AppState :=
  { url := ""
    format := "video+audio"
    quality := "best"
    isDownloading := false
    isFetchingInfo := false
    progress := 0
    downloadPath := none
    availableQualities := []
    logs := []
    isLogViewerOpen := false }

/-- Primitive effects performed by the handlers, one constructor per
statement kind in the source. -/
inductive Action where
  | setIsDownloading (b : Bool)
  | setIsFetchingInfo (b : Bool)
  | setProgress (p : Int)
  | setLogs (l : List LogMessage)
  | appendLog (m : LogMessage)
  | setAvailableQualities (qs : List QualityOption)
  | toastError (msg : String)
  | toastSuccess (msg : String)
  | consoleError (msg : String)
  | invokeGetInfo (url : String)
  | invokeDownload (req : DownloadRequest)
  | subscribeProgress
  | unsubscribeProgress
deriving DecidableEq, Repr

/-- Interpretation of an action on the component state.  Toasts, console
output, invokes and subscription management do not change `AppState`. -/
def applyAction (s : AppState) : Action → AppState
  | Action.setIsDownloading b => { s with isDownloading := b }
  | Action.setIsFetchingInfo b => { s with isFetchingInfo := b }
  | Action.setProgress p => { s with progress := p }
  | Action.setLogs l => { s with logs := l }
  | Action.appendLog m => { s with logs := s.logs ++ [m] }
  | Action.setAvailableQualities qs => { s with availableQualities := qs }
  | Action.toastError _ => s
  | Action.toastSuccess _ => s
  | Action.consoleError _ => s
  | Action.invokeGetInfo _ => s
  | Action.invokeDownload _ => s
  | Action.subscribeProgress => s
  | Action.unsubscribeProgress => s

/-- Run a trace of actions left to right. -/
def applyActions (s : AppState) (acts : List Action) : AppState :=
  acts.foldl applyAction s

/-- Asynchronous events that can be delivered while `download_media` is in
flight: `download-progress` payloads `{ progress, status }` handled by the
listener registered in `handleDownload`, and `download-log` payloads
handled by the mount-effect listener. -/
inductive DuringEvent where
  | progress (p : Int) (status : String)
  | log (m : BackendLogMessage)
deriving DecidableEq, Repr

/-- What each in-flight event does: the progress listener runs
`setProgress(event.payload.progress)`; the log listener appends
`{ type: payload.message_type, message: payload.message }`. -/
def duringAction : DuringEvent → Action
  | DuringEvent.progress p _ => Action.setProgress p
  | DuringEvent.log m => Action.appendLog ⟨m.message_type, m.message⟩

/-- The `download-log` handler registered by the mount effect:
`setLogs((prev) => [...prev, { type: payload.message_type, message: payload.message }])`. -/
def onDownloadLog (s : AppState) (e : BackendLogMessage) : AppState :=
  { s with logs := s.logs ++ [⟨e.message_type, e.message⟩] }

/-- Payload-to-`LogMessage` conversion done by the log handler. -/
def toLogMessage (e : BackendLogMessage) : LogMessage :=
  ⟨e.message_type, e.message⟩

/-- The argument record `handleDownload` passes to
`invoke("download_media", { url, format, quality, downloadPath })`. -/
def downloadRequestOf (s : AppState) : DownloadRequest :=
  ⟨s.url, s.format, s.quality, s.downloadPath⟩

/-- Trace of one `handleDownload()` invocation from state `s`, when the
awaited `download_media` call settles with `outcome` and `events` are
delivered while it is in flight.  Mirrors the source line by line:
empty-URL guard; `setIsDownloading(true)`; `setProgress(0)`;
`setLogs([])`; `await listen("download-progress", ...)`; the `invoke`;
the in-flight events; then `toast.success` and `setProgress(100)` on
resolution, or `console.error` and `toast.error` on rejection; finally
`setIsDownloading(false)` and `unlisten()`. -/
def handleDownload (s : AppState) (outcome : Except String Unit)
    (events : List DuringEvent) : List Action :=
  if s.url = "" then
    [Action.toastError "Please enter a YouTube URL"]
  else
    [Action.setIsDownloading true, Action.setProgress 0, Action.setLogs [],
      Action.subscribeProgress, Action.invokeDownload (downloadRequestOf s)]
    ++ events.map duringAction
    ++ (match outcome with
        | Except.ok _ =>
          [Action.toastSuccess "Download started successfully!", Action.setProgress 100]
        | Except.error e =>
          [Action.consoleError e, Action.toastError ("Failed to start download: " ++ e)])
    ++ [Action.setIsDownloading false, Action.unsubscribeProgress]

/-- Final state of one `handleDownload()` invocation. -/
def handleDownloadFinal (s : AppState) (outcome : Except String Unit)
    (events : List DuringEvent) : AppState :=
  applyActions s (handleDownload s outcome events)

/-- Trace of one `handleFetchVideoInfo()` invocation from state `s`, when
the awaited `get_video_info` call settles with `outcome`.  Mirrors the
source: empty-URL guard; `setIsFetchingInfo(true)`; the `invoke`; then
`setAvailableQualities` and `toast.success` on resolution, or
`console.error` and `toast.error` on rejection; finally
`setIsFetchingInfo(false)`. -/
def handleFetchVideoInfo (s : AppState)
    (outcome : Except String (List QualityOption)) : List Action :=
  if s.url = "" then
    [Action.toastError "Please enter a YouTube URL"]
  else
    [Action.setIsFetchingInfo true, Action.invokeGetInfo s.url]
    ++ (match outcome with
        | Except.ok qs =>
          [Action.setAvailableQualities qs, Action.toastSuccess "Video info fetched successfully!"]
        | Except.error e =>
          [Action.consoleError e, Action.toastError ("Failed to fetch video info: " ++ e)])
    ++ [Action.setIsFetchingInfo false]

/-- Final state of one `handleFetchVideoInfo()` invocation. -/
def handleFetchVideoInfoFinal (s : AppState)
    (outcome : Except String (List QualityOption)) : AppState :=
  applyActions s (handleFetchVideoInfo s outcome)

/-- The option values rendered by the quality `Select`:
`availableQualities.length > 0 ? availableQualities.map(q => q.id) : ["best", "worst"]`. -/
def qualitySelectorIds (s : AppState) : List String :=
  if s.availableQualities.length > 0 then
    s.availableQualities.map QualityOption.id
  else
    ["best", "worst"]

/-- One step of the progress evolution: a progress event overwrites the
current value, a log event keeps it. -/
def stepProgress (p : Int) : DuringEvent → Int
  | DuringEvent.progress q _ => q
  | DuringEvent.log _ => p

/-- The value the in-flight events leave in `progress`, starting from the
reset value 0. -/
def lastProgress (events : List DuringEvent) : Int :=
  events.foldl stepProgress 0

/-- Whether any `download-progress` event is among the in-flight events. -/
def hasProgressEvent (events : List DuringEvent) : Bool :=
  events.any fun ev => match ev with
    | DuringEvent.progress _ _ => true
    | DuringEvent.log _ => false

/-- Occurrence count of an action in a trace. -/
def countAct (a : Action) : List Action → Nat
  | [] => 0
  | b :: t => (if b = a then 1 else 0) + countAct a t

/-- A concrete state used to instantiate the theorems: the initial state
with a URL typed in. -/
def sampleState : AppState :=
  { initialState with url := "https://www.youtube.com/watch?v=abc123" }

/-! ## Helper lemmas -/

lemma applyActions_append (s : AppState) (l m : List Action) :
    applyActions s (l ++ m) = applyActions (applyActions s l) m := by
  simp [applyActions, List.foldl_append]

lemma progress_after_during (events : List DuringEvent) (t : AppState) :
    (applyActions t (events.map duringAction)).progress =
      events.foldl stepProgress t.progress := by
  induction events generalizing t with
  | nil => rfl
  | cons ev tl ih =>
    cases ev with
    | progress p st =>
      simpa [applyActions, duringAction, applyAction, stepProgress] using
        ih { t with progress := p }
    | log m =>
      simpa [applyActions, duringAction, applyAction, stepProgress] using
        ih { t with logs := t.logs ++ [toLogMessage m] }

lemma lastProgress_of_no_progress_event (events : List DuringEvent)
    (h : hasProgressEvent events = false) : ∀ p : Int,
    events.foldl stepProgress p = p := by
  induction events with
  | nil => intro p; rfl
  | cons ev tl ih =>
    intro p
    cases ev with
    | progress q st => simp [hasProgressEvent] at h
    | log m =>
      have h' : hasProgressEvent tl = false := by
        simpa [hasProgressEvent] using h
      simpa [stepProgress] using ih h' p

lemma onDownloadLog_foldl_logs (events : List BackendLogMessage) (s : AppState) :
    (events.foldl onDownloadLog s).logs = s.logs ++ events.map toLogMessage := by
  induction events generalizing s with
  | nil => simp
  | cons e tl ih =>
    simpa [onDownloadLog, toLogMessage] using ih (onDownloadLog s e)

lemma countAct_append (a : Action) (l m : List Action) :
    countAct a (l ++ m) = countAct a l + countAct a m := by
  induction l with
  | nil => simp [countAct]
  | cons b t ih => simp [countAct, ih, Nat.add_assoc]

lemma countAct_subscribe_during (events : List DuringEvent) :
    countAct Action.subscribeProgress (events.map duringAction) = 0 := by
  induction events with
  | nil => rfl
  | cons ev tl ih => cases ev <;> simp [countAct, duringAction, ih]

lemma countAct_unsubscribe_during (events : List DuringEvent) :
    countAct Action.unsubscribeProgress (events.map duringAction) = 0 := by
  induction events with
  | nil => rfl
  | cons ev tl ih => cases ev <;> simp [countAct, duringAction, ih]

/-! ## Claim theorems -/

/-- C1: every `handleDownload` invocation with a non-empty URL sets the
progress to 0 and the logs to the empty sequence before the
`download_media` command is issued, and every in-flight event is appended
only after the command is issued. -/
theorem handleDownload_resets_before_invoke (s : AppState)
    (outcome : Except String Unit) (events : List DuringEvent)
    (h : s.url ≠ "") :
    ∃ pre tail, handleDownload s outcome events =
        pre ++ Action.invokeDownload (downloadRequestOf s) ::
          (events.map duringAction ++ tail) ∧
      (applyActions s pre).progress = 0 ∧
      (applyActions s pre).logs = [] := by
  refine ⟨[Action.setIsDownloading true, Action.setProgress 0, Action.setLogs [],
      Action.subscribeProgress],
    (match outcome with
      | Except.ok _ =>
        [Action.toastSuccess "Download started successfully!", Action.setProgress 100]
      | Except.error e =>
        [Action.consoleError e, Action.toastError ("Failed to start download: " ++ e)])
    ++ [Action.setIsDownloading false, Action.unsubscribeProgress], ?_, ?_, ?_⟩
  · simp [handleDownload, h]
  · simp [applyActions, applyAction]
  · simp [applyActions, applyAction]

/-- C1 witness at a concrete input. -/
theorem handleDownload_resets_before_invoke_witness :
    sampleState.url ≠ "" ∧
    ∃ pre tail,
      handleDownload sampleState (Except.ok ()) [DuringEvent.progress 37 "downloading"] =
        pre ++ Action.invokeDownload (downloadRequestOf sampleState) ::
          ([DuringEvent.progress 37 "downloading"].map duringAction ++ tail) ∧
      (applyActions sampleState pre).progress = 0 ∧
      (applyActions sampleState pre).logs = [] :=
  ⟨by decide, handleDownload_resets_before_invoke sampleState (Except.ok ())
    [DuringEvent.progress 37 "downloading"] (by decide)⟩

/-- C2: when `download_media` resolves, the final progress is exactly 100,
whatever progress events were delivered in flight. -/
theorem handleDownload_success_sets_100 (s : AppState)
    (events : List DuringEvent) (h : s.url ≠ "") :
    (handleDownloadFinal s (Except.ok ()) events).progress = 100 := by
  simp [handleDownloadFinal, handleDownload, h, applyActions,
    List.foldl_append, applyAction]

/-- C2 witness at a concrete input whose last progress event carried 42. -/
theorem handleDownload_success_sets_100_witness :
    sampleState.url ≠ "" ∧
    (handleDownloadFinal sampleState (Except.ok ())
      [DuringEvent.progress 42 "downloading"]).progress = 100 :=
  ⟨by decide, handleDownload_success_sets_100 sampleState
    [DuringEvent.progress 42 "downloading"] (by decide)⟩

/-- C3: when `download_media` rejects with error `e`, a notification with
text `"Failed to start download: " ++ e` is shown, and the final progress
is the last value delivered by an in-flight progress event (0 when none
arrived). -/
theorem handleDownload_failure_toast_and_progress (s : AppState) (e : String)
    (events : List DuringEvent) (h : s.url ≠ "") :
    Action.toastError ("Failed to start download: " ++ e)
        ∈ handleDownload s (Except.error e) events ∧
    (handleDownloadFinal s (Except.error e) events).progress =
        lastProgress events ∧
    (hasProgressEvent events = false →
      (handleDownloadFinal s (Except.error e) events).progress = 0) := by
  have hmain :
      (handleDownloadFinal s (Except.error e) events).progress =
        lastProgress events := by
    have hstep := progress_after_during events
      (applyActions s [Action.setIsDownloading true, Action.setProgress 0,
        Action.setLogs [], Action.subscribeProgress,
        Action.invokeDownload (downloadRequestOf s)])
    simp [applyActions, applyAction] at hstep
    simp [handleDownloadFinal, handleDownload, h, applyActions,
      List.foldl_append, applyAction, lastProgress]
    simpa [applyActions] using hstep
  refine ⟨?_, hmain, ?_⟩
  · simp [handleDownload, h]
  · intro hno
    rw [hmain, lastProgress, lastProgress_of_no_progress_event events hno 0]

/-- C3 witness: error `"tool not found"` with no in-flight events. -/
theorem handleDownload_failure_toast_and_progress_witness :
    sampleState.url ≠ "" ∧
    (Action.toastError "Failed to start download: tool not found"
        ∈ handleDownload sampleState (Except.error "tool not found") [] ∧
      (handleDownloadFinal sampleState (Except.error "tool not found") []).progress =
        lastProgress [] ∧
      (hasProgressEvent ([] : List DuringEvent) = false →
        (handleDownloadFinal sampleState (Except.error "tool not found") []).progress = 0)) :=
  ⟨by decide, handleDownload_failure_toast_and_progress sampleState
    "tool not found" [] (by decide)⟩

/-- C4: the quality selector shows the static fallback exactly when the
held quality list is empty (the initial state holds the empty list, and a
successful fetch stores exactly the returned list), and otherwise shows
exactly the fetched ids in order; the displayed list is always one of the
two, never a merge. -/
theorem quality_selector_exclusive (s : AppState) :
    (qualitySelectorIds s = ["best", "worst"] ∨
      qualitySelectorIds s = s.availableQualities.map QualityOption.id) ∧
    (s.availableQualities = [] → qualitySelectorIds s = ["best", "worst"]) ∧
    (s.availableQualities ≠ [] →
      qualitySelectorIds s = s.availableQualities.map QualityOption.id) ∧
    initialState.availableQualities = [] ∧
    (∀ qs, s.url ≠ "" →
      (handleFetchVideoInfoFinal s (Except.ok qs)).availableQualities = qs) := by
  refine ⟨?_, ?_, ?_, rfl, ?_⟩
  · by_cases hq : s.availableQualities = []
    · exact Or.inl (by simp [qualitySelectorIds, hq])
    · exact Or.inr (by
        simp [qualitySelectorIds, List.length_pos.mpr hq])
  · intro hq; simp [qualitySelectorIds, hq]
  · intro hq; simp [qualitySelectorIds, List.length_pos.mpr hq]
  · intro qs hu
    simp [handleFetchVideoInfoFinal, handleFetchVideoInfo, hu,
      applyActions, applyAction]

/-- C4 witness: empty list shows the fallback; the fetched list from the
spec scenario replaces it wholesale and is shown alone. -/
theorem quality_selector_exclusive_witness :
    (initialState.availableQualities = [] ∧
      qualitySelectorIds initialState = ["best", "worst"]) ∧
    (sampleState.url ≠ "" ∧
      (handleFetchVideoInfoFinal sampleState (Except.ok
        [⟨"137", "1080p", "video"⟩, ⟨"140", "128kbps", "audio"⟩])).availableQualities =
        [⟨"137", "1080p", "video"⟩, ⟨"140", "128kbps", "audio"⟩]) :=
  ⟨⟨rfl, (quality_selector_exclusive initialState).2.1 rfl⟩,
    ⟨by decide, (quality_selector_exclusive sampleState).2.2.2.2
      [⟨"137", "1080p", "video"⟩, ⟨"140", "128kbps", "audio"⟩] (by decide)⟩⟩

/-- C5: the `download-log` handler appends exactly one converted message
per emission, so a sequence of emissions processed from an empty log
leaves the log equal to the emission sequence in order. -/
theorem log_stream_appends_in_order (s : AppState)
    (events : List BackendLogMessage) (h : s.logs = []) :
    (events.foldl onDownloadLog s).logs = events.map toLogMessage ∧
    ∀ t e, (onDownloadLog t e).logs = t.logs ++ [toLogMessage e] := by
  constructor
  · rw [onDownloadLog_foldl_logs, h]; rfl
  · intro t e; rfl

/-- C5 witness: two emissions land in order from an empty log. -/
theorem log_stream_appends_in_order_witness :
    initialState.logs = [] ∧
    ([⟨"stdout", "line one"⟩, ⟨"stderr", "line two"⟩].foldl
        onDownloadLog initialState).logs =
      [⟨"stdout", "line one"⟩, ⟨"stderr", "line two"⟩].map toLogMessage :=
  ⟨rfl, (log_stream_appends_in_order initialState
    [⟨"stdout", "line one"⟩, ⟨"stderr", "line two"⟩] rfl).1⟩

/-- C6: with an empty URL, both handlers stop at the error notification:
the trace is exactly the one toast, the state is unchanged, and no
`get_video_info` or `download_media` invoke appears in either trace. -/
theorem empty_url_rejects_before_invoke (s : AppState) (h : s.url = "")
    (fo : Except String (List QualityOption)) (outcome : Except String Unit)
    (events : List DuringEvent) :
    handleFetchVideoInfo s fo = [Action.toastError "Please enter a YouTube URL"] ∧
    handleDownload s outcome events =
      [Action.toastError "Please enter a YouTube URL"] ∧
    handleFetchVideoInfoFinal s fo = s ∧
    handleDownloadFinal s outcome events = s ∧
    (∀ u, Action.invokeGetInfo u ∉ handleFetchVideoInfo s fo) ∧
    (∀ r, Action.invokeDownload r ∉ handleDownload s outcome events) := by
  refine ⟨by simp [handleFetchVideoInfo, h], by simp [handleDownload, h],
    ?_, ?_, ?_, ?_⟩
  · simp [handleFetchVideoInfoFinal, handleFetchVideoInfo, h,
      applyActions, applyAction]
  · simp [handleDownloadFinal, handleDownload, h, applyActions, applyAction]
  · intro u; simp [handleFetchVideoInfo, h]
  · intro r; simp [handleDownload, h]

/-- C6 witness at the initial state, whose URL is empty. -/
theorem empty_url_rejects_before_invoke_witness :
    initialState.url = "" ∧
    (handleFetchVideoInfo initialState (Except.ok []) =
        [Action.toastError "Please enter a YouTube URL"] ∧
      handleDownload initialState (Except.ok ()) [] =
        [Action.toastError "Please enter a YouTube URL"] ∧
      handleFetchVideoInfoFinal initialState (Except.ok []) = initialState ∧
      handleDownloadFinal initialState (Except.ok ()) [] = initialState ∧
      (∀ u, Action.invokeGetInfo u ∉ handleFetchVideoInfo initialState (Except.ok [])) ∧
      (∀ r, Action.invokeDownload r ∉ handleDownload initialState (Except.ok ()) [])) :=
  ⟨rfl, empty_url_rejects_before_invoke initialState rfl (Except.ok [])
    (Except.ok ()) []⟩

/-- C7: with format `"audio"`, quality `"140"` and no chosen directory,
the `download_media` invoke carries exactly the record
`{url, format := "audio", quality := "140", downloadPath := none}`. -/
theorem download_request_audio_140 (s : AppState)
    (outcome : Except String Unit) (events : List DuringEvent)
    (h : s.url ≠ "") (hf : s.format = "audio") (hq : s.quality = "140")
    (hp : s.downloadPath = none) :
    downloadRequestOf s = ⟨s.url, "audio", "140", none⟩ ∧
    Action.invokeDownload ⟨s.url, "audio", "140", none⟩
      ∈ handleDownload s outcome events := by
  have hreq : downloadRequestOf s = ⟨s.url, "audio", "140", none⟩ := by
    simp [downloadRequestOf, hf, hq, hp]
  exact ⟨hreq, by simp [handleDownload, h, hreq]⟩

/-- C7 witness: the spec scenario's request record. -/
theorem download_request_audio_140_witness :
    (let s := { sampleState with format := "audio", quality := "140" }
     s.url ≠ "" ∧ s.format = "audio" ∧ s.quality = "140" ∧
      s.downloadPath = none ∧
      (downloadRequestOf s = ⟨s.url, "audio", "140", none⟩ ∧
        Action.invokeDownload ⟨s.url, "audio", "140", none⟩
          ∈ handleDownload s (Except.ok ()) [])) :=
  ⟨by decide, rfl, rfl, rfl,
    download_request_audio_140 _ (Except.ok ()) [] (by decide) rfl rfl rfl⟩

/-- C8: every `handleDownload` invocation that subscribes to the progress
stream subscribes exactly once and releases the subscription exactly once,
as the last effect after the `download_media` call settles, on the success
path and on the failure path alike. -/
theorem progress_listener_released_once (s : AppState)
    (outcome : Except String Unit) (events : List DuringEvent)
    (h : s.url ≠ "") :
    countAct Action.subscribeProgress (handleDownload s outcome events) = 1 ∧
    countAct Action.unsubscribeProgress (handleDownload s outcome events) = 1 ∧
    ∃ pre, handleDownload s outcome events =
      pre ++ [Action.unsubscribeProgress] := by
  cases outcome with
  | ok u =>
    refine ⟨?_, ?_,
      ⟨[Action.setIsDownloading true, Action.setProgress 0, Action.setLogs [],
          Action.subscribeProgress, Action.invokeDownload (downloadRequestOf s)]
        ++ events.map duringAction
        ++ [Action.toastSuccess "Download started successfully!",
            Action.setProgress 100, Action.setIsDownloading false], ?_⟩⟩
    · simp [handleDownload, h, countAct_append, countAct_subscribe_during, countAct]
    · simp [handleDownload, h, countAct_append, countAct_unsubscribe_during, countAct]
    · simp [handleDownload, h]
  | error e =>
    refine ⟨?_, ?_,
      ⟨[Action.setIsDownloading true, Action.setProgress 0, Action.setLogs [],
          Action.subscribeProgress, Action.invokeDownload (downloadRequestOf s)]
        ++ events.map duringAction
        ++ [Action.consoleError e,
            Action.toastError ("Failed to start download: " ++ e),
            Action.setIsDownloading false], ?_⟩⟩
    · simp [handleDownload, h, countAct_append, countAct_subscribe_during, countAct]
    · simp [handleDownload, h, countAct_append, countAct_unsubscribe_during, countAct]
    · simp [handleDownload, h]

/-- C8 witness on the failure path with an in-flight log event. -/
theorem progress_listener_released_once_witness :
    sampleState.url ≠ "" ∧
    (countAct Action.subscribeProgress
        (handleDownload sampleState (Except.error "tool not found")
          [DuringEvent.log ⟨"stderr", "oops"⟩]) = 1 ∧
      countAct Action.unsubscribeProgress
        (handleDownload sampleState (Except.error "tool not found")
          [DuringEvent.log ⟨"stderr", "oops"⟩]) = 1 ∧
      ∃ pre, handleDownload sampleState (Except.error "tool not found")
          [DuringEvent.log ⟨"stderr", "oops"⟩] =
        pre ++ [Action.unsubscribeProgress]) :=
  ⟨by decide, progress_listener_released_once sampleState
    (Except.error "tool not found") [DuringEvent.log ⟨"stderr", "oops"⟩]
    (by decide)⟩

/-- C9: when `get_video_info` rejects, the quality list is untouched, the
final state differs from the initial one only in `isFetchingInfo`, and an
error notification is shown. -/
theorem fetch_failure_preserves_qualities (s : AppState) (e : String)
    (h : s.url ≠ "") :
    (handleFetchVideoInfoFinal s (Except.error e)).availableQualities =
      s.availableQualities ∧
    handleFetchVideoInfoFinal s (Except.error e) =
      { s with isFetchingInfo := false } ∧
    Action.toastError ("Failed to fetch video info: " ++ e)
      ∈ handleFetchVideoInfo s (Except.error e) := by
  refine ⟨?_, ?_, ?_⟩ <;>
    simp [handleFetchVideoInfoFinal, handleFetchVideoInfo, h,
      applyActions, applyAction]

/-- C9 witness at a concrete state carrying a previously fetched list. -/
theorem fetch_failure_preserves_qualities_witness :
    (let s := { sampleState with
      availableQualities := [⟨"137", "1080p", "video"⟩] }
     s.url ≠ "" ∧
      ((handleFetchVideoInfoFinal s (Except.error "network down")).availableQualities =
          s.availableQualities ∧
        handleFetchVideoInfoFinal s (Except.error "network down") =
          { s with isFetchingInfo := false } ∧
        Action.toastError "Failed to fetch video info: network down"
          ∈ handleFetchVideoInfo s (Except.error "network down"))) :=
  ⟨by decide, fetch_failure_preserves_qualities _ "network down" (by decide)⟩

/-- C10: a successful fetch replaces `availableQualities` and leaves the
selected `quality` untouched, so when the selected value is not among the
fetched ids it is absent from the displayed options, and a subsequent
`download_media` request still carries it. -/
theorem fetch_success_keeps_selected_quality (s : AppState)
    (qs : List QualityOption) (h : s.url ≠ "") :
    (handleFetchVideoInfoFinal s (Except.ok qs)).availableQualities = qs ∧
    (handleFetchVideoInfoFinal s (Except.ok qs)).quality = s.quality ∧
    (qs ≠ [] → s.quality ∉ qs.map QualityOption.id →
      (handleFetchVideoInfoFinal s (Except.ok qs)).quality ∉
        qualitySelectorIds (handleFetchVideoInfoFinal s (Except.ok qs))) ∧
    ∀ outcome events,
      (downloadRequestOf (handleFetchVideoInfoFinal s (Except.ok qs))).quality =
        s.quality ∧
      Action.invokeDownload
          (downloadRequestOf (handleFetchVideoInfoFinal s (Except.ok qs)))
        ∈ handleDownload (handleFetchVideoInfoFinal s (Except.ok qs))
            outcome events := by
  have hfin : handleFetchVideoInfoFinal s (Except.ok qs) =
      { s with availableQualities := qs, isFetchingInfo := false } := by
    simp [handleFetchVideoInfoFinal, handleFetchVideoInfo, h,
      applyActions, applyAction]
  have hu : (handleFetchVideoInfoFinal s (Except.ok qs)).url ≠ "" := by
    rw [hfin]; exact h
  refine ⟨by rw [hfin], by rw [hfin], ?_, ?_⟩
  · intro hne hnotin
    rw [hfin]
    simpa [qualitySelectorIds, List.length_pos.mpr hne] using hnotin
  · intro outcome events
    exact ⟨by rw [hfin]; rfl, by simp [handleDownload, hu]⟩

/-- C10 witness: the initial selection `"best"` survives a fetch whose
ids are `"137"` and `"140"`, is absent from the options, and is what the
next download request carries. -/
theorem fetch_success_keeps_selected_quality_witness :
    sampleState.url ≠ "" ∧
    ((handleFetchVideoInfoFinal sampleState (Except.ok
        [⟨"137", "1080p", "video"⟩, ⟨"140", "128kbps", "audio"⟩])).availableQualities =
      [⟨"137", "1080p", "video"⟩, ⟨"140", "128kbps", "audio"⟩] ∧
    (handleFetchVideoInfoFinal sampleState (Except.ok
        [⟨"137", "1080p", "video"⟩, ⟨"140", "128kbps", "audio"⟩])).quality =
      sampleState.quality ∧
    (([⟨"137", "1080p", "video"⟩, ⟨"140", "128kbps", "audio"⟩] :
        List QualityOption) ≠ [] →
      sampleState.quality ∉
        ([⟨"137", "1080p", "video"⟩, ⟨"140", "128kbps", "audio"⟩] :
          List QualityOption).map QualityOption.id →
      (handleFetchVideoInfoFinal sampleState (Except.ok
          [⟨"137", "1080p", "video"⟩, ⟨"140", "128kbps", "audio"⟩])).quality ∉
        qualitySelectorIds (handleFetchVideoInfoFinal sampleState (Except.ok
          [⟨"137", "1080p", "video"⟩, ⟨"140", "128kbps", "audio"⟩]))) ∧
    ∀ outcome events,
      (downloadRequestOf (handleFetchVideoInfoFinal sampleState (Except.ok
          [⟨"137", "1080p", "video"⟩, ⟨"140", "128kbps", "audio"⟩]))).quality =
        sampleState.quality ∧
      Action.invokeDownload
          (downloadRequestOf (handleFetchVideoInfoFinal sampleState (Except.ok
            [⟨"137", "1080p", "video"⟩, ⟨"140", "128kbps", "audio"⟩])))
        ∈ handleDownload (handleFetchVideoInfoFinal sampleState (Except.ok
            [⟨"137", "1080p", "video"⟩, ⟨"140", "128kbps", "audio"⟩]))
            outcome events) :=
  ⟨by decide, fetch_success_keeps_selected_quality sampleState
    [⟨"137", "1080p", "video"⟩, ⟨"140", "128kbps", "audio"⟩] (by decide)⟩

end Frieren
